import Mathlib

/-!
Shallow embedding of the spgill-backup configuration resolution and
argument-synthesis engine.  Definitions are translated from
src/spgill/backup/model.py, src/spgill/backup/helper.py and
src/spgill/backup/cli.py.  Fatal error paths (print_error followed by
exit(1) in the source) are modelled as Except.error carrying the printed
message; filesystem access is modelled by an explicit oracle record.
-/

namespace SpgillBackup

/-- Python truthiness of an optional string: None and the empty string are falsy. -/
def pyTruthyStr : Option String → Bool
  | none => false
  | some s => s ≠ ""

/-- Python truthiness of an optional integer: None and 0 are falsy. -/
def pyTruthyInt : Option Int → Bool
  | none => false
  | some n => n ≠ 0

/-- Python expression `a or b` for an optional string `a` (None and "" are falsy). -/
def pyOrStr (a : Option String) (b : String) : String :=
  match a with
  | some s => if s = "" then b else s
  | none => b

/-- Python dict[str, str] as an ordered association list (insertion order, unique keys). -/
abbrev EnvMap := List (String × String)

/-- Python dict merge expression of two dicts: keys of the first in order (values
overridden by the second where both define the key), then the keys only the second
defines, in its order. -/
def mergeEnv (a b : EnvMap) : EnvMap :=
  a.map (fun kv => (kv.1, (b.lookup kv.1).getD kv.2))
    ++ b.filter (fun kv => (a.lookup kv.1).isNone)

/-- A runtime value that is either a Python str or a Python int.  The dataclass field
exclude_larger_than is annotated str in model.py, but the value actually loaded from
YAML can be a bare integer, which is exactly the case helper.get_inclusion_arguments
checks for with isinstance. -/
inductive PyStrOrInt where
  | str (s : String)
  | int (n : Int)
deriving DecidableEq

/-- Python truthiness of such a value: the empty string and 0 are falsy. -/
def PyStrOrInt.truthy : PyStrOrInt → Bool
  | .str s => s ≠ ""
  | .int n => n ≠ 0

/-- BackupLocation from model.py. -/
structure BackupLocation where
  path : String
  password_file : Option String := none
  password_command : Option String := none
  env : Option EnvMap := none
  clean_env : Option EnvMap := none
deriving DecidableEq

/-- BackupSourceDef from model.py.  The field named include in the source is named
include_ here because include is a reserved word in Lean.  Note that in the source
include_files_from and include_files_from_verbatim are annotated str (not list[str])
with default "". -/
structure BackupSourceDef where
  include_ : List String := []
  include_files_from : String := ""
  include_files_from_verbatim : String := ""
  exclude : List String := []
  iexclude : List String := []
  exclude_if_present : List String := []
  exclude_file : List String := []
  iexclude_file : List String := []
  exclude_caches : Bool := false
  exclude_larger_than : PyStrOrInt := .str ""
deriving DecidableEq

/-- BackupRetention from model.py. -/
structure BackupRetention where
  keep_last : Option Int := none
  keep_within : Option String := none
  keep_hourly : Option Int := none
  keep_daily : Option Int := none
  keep_weekly : Option Int := none
  keep_monthly : Option Int := none
  keep_yearly : Option Int := none
deriving DecidableEq

/-- BackupPolicy from model.py; location is Optional[Union[str, list[str]]]. -/
structure BackupPolicy where
  location : Option (String ⊕ List String) := none
  schedule : Option String := none
  retention : Option BackupRetention := none
deriving DecidableEq

/-- BackupProfile from model.py, extending BackupSourceDef.  groups is a Python dict
of group name to BackupSourceDef, modelled as an ordered association list. -/
structure BackupProfile extends BackupSourceDef where
  policy : Option String := none
  hostname : Option String := none
  archive_name : Option String := none
  tags : Option (List String) := none
  groups : Option (List (String × BackupSourceDef)) := none
  args : Option (List String) := none
deriving DecidableEq

/-- ArchiveConfiguration from model.py. -/
structure ArchiveConfiguration where
  cache : String
  password_file : String
deriving DecidableEq

/-- RootBackupConfiguration from model.py; the three maps are ordered association lists. -/
structure RootBackupConfiguration where
  locations : List (String × BackupLocation) := []
  policies : List (String × BackupPolicy) := []
  profiles : List (String × BackupProfile) := []
  global_profile : Option BackupProfile := none
  archive : Option ArchiveConfiguration := none
  cache : Option String := none
  v : Option Int := none
deriving DecidableEq

/-- helper.get_location: dictionary lookup, with print_error (modelled as
Except.error) when the name is absent. -/
def get_location (config : RootBackupConfiguration) (name : String) :
    Except String BackupLocation :=
  match config.locations.lookup name with
  | some location => .ok location
  | none => .error ("Error: No backup location found by name \x27" ++ name ++ "\x27")

/-- Per-field semantics of the serialize-and-merge in helper.merge_with_global_profile:
the source serializes both profiles with dict(exclude_defaults=True), so a field
participates exactly when its value differs from the field default, and mergedeep
with Strategy.ADDITIVE overwrites non-list non-dict values.  Hence a scalar field of
the result is the profile value when that differs from the default, else the global
value (which is itself the default when the global leaves it unset). -/
def mergeScalar {α : Type} [DecidableEq α] (dflt g p : α) : α :=
  if p ≠ dflt then p else g

/-- Merge of an optional scalar field (default None): mergedeep keeps the global value
only when the profile omits the field. -/
def mergeOptScalar {α : Type} (g p : Option α) : Option α :=
  match p with
  | some x => some x
  | none => g

/-- Merge of a list-valued field with default []: mergedeep Strategy.ADDITIVE
concatenates two present lists, and an absent side is exactly the empty default, so
the result is always global entries followed by profile entries. -/
def mergeList {α : Type} (g p : List α) : List α := g ++ p

/-- Merge of an Optional list-valued field (default None): additive concatenation when
both sides define it, otherwise whichever side is defined. -/
def mergeOptList {α : Type} (g p : Option (List α)) : Option (List α) :=
  match p with
  | none => g
  | some l =>
    match g with
    | none => some l
    | some lg => some (lg ++ l)

/-- Recursive additive merge of two serialized BackupSourceDef records, as performed
by mergedeep when both sides of the groups dict define the same group name. -/
def mergeSourceDef (g p : BackupSourceDef) : BackupSourceDef :=
  { include_ := mergeList g.include_ p.include_
    include_files_from := mergeScalar "" g.include_files_from p.include_files_from
    include_files_from_verbatim :=
      mergeScalar "" g.include_files_from_verbatim p.include_files_from_verbatim
    exclude := mergeList g.exclude p.exclude
    iexclude := mergeList g.iexclude p.iexclude
    exclude_if_present := mergeList g.exclude_if_present p.exclude_if_present
    exclude_file := mergeList g.exclude_file p.exclude_file
    iexclude_file := mergeList g.iexclude_file p.iexclude_file
    exclude_caches := mergeScalar false g.exclude_caches p.exclude_caches
    exclude_larger_than :=
      mergeScalar (.str "") g.exclude_larger_than p.exclude_larger_than }

/-- Additive merge of two groups dicts: keys of the global dict in order (shared keys
merged recursively), then the keys only the profile defines, in its order. -/
def mergeGroupMaps (g p : List (String × BackupSourceDef)) :
    List (String × BackupSourceDef) :=
  g.map (fun kv =>
    match p.lookup kv.1 with
    | some vp => (kv.1, mergeSourceDef kv.2 vp)
    | none => kv)
    ++ p.filter (fun kv => (g.lookup kv.1).isNone)

/-- Merge of the optional groups field. -/
def mergeOptGroups (g p : Option (List (String × BackupSourceDef))) :
    Option (List (String × BackupSourceDef)) :=
  match p with
  | none => g
  | some mp =>
    match g with
    | none => some mp
    | some mg => some (mergeGroupMaps mg mp)

/-- helper.merge_with_global_profile: serializes the global profile (an empty dict
when it is None) and the given profile with exclude_defaults=True, merges them with
mergedeep Strategy.ADDITIVE (global first, profile second) and rebuilds a
BackupProfile.  Embedded field by field as explained on the merge helpers above. -/
def merge_with_global_profile (config : RootBackupConfiguration)
    (profile : BackupProfile) : BackupProfile :=
  match config.global_profile with
  | none => profile
  | some g =>
    { include_ := mergeList g.include_ profile.include_
      include_files_from := mergeScalar "" g.include_files_from profile.include_files_from
      include_files_from_verbatim :=
        mergeScalar "" g.include_files_from_verbatim profile.include_files_from_verbatim
      exclude := mergeList g.exclude profile.exclude
      iexclude := mergeList g.iexclude profile.iexclude
      exclude_if_present := mergeList g.exclude_if_present profile.exclude_if_present
      exclude_file := mergeList g.exclude_file profile.exclude_file
      iexclude_file := mergeList g.iexclude_file profile.iexclude_file
      exclude_caches := mergeScalar false g.exclude_caches profile.exclude_caches
      exclude_larger_than :=
        mergeScalar (.str "") g.exclude_larger_than profile.exclude_larger_than
      policy := mergeOptScalar g.policy profile.policy
      hostname := mergeOptScalar g.hostname profile.hostname
      archive_name := mergeOptScalar g.archive_name profile.archive_name
      tags := mergeOptList g.tags profile.tags
      groups := mergeOptGroups g.groups profile.groups
      args := mergeOptList g.args profile.args }

/-- helper.get_profile: lookup by name, then the policy presence check on the
unmerged profile (the Python test is the truthiness test "if not profile.policy"),
then the merge with the global profile. -/
def get_profile (config : RootBackupConfiguration) (name : String) :
    Except String BackupProfile :=
  match config.profiles.lookup name with
  | none => .error ("Error: No backup profile found by name \x27" ++ name ++ "\x27")
  | some profile =>
    if pyTruthyStr profile.policy then
      .ok (merge_with_global_profile config profile)
    else
      .error ("Error: Backup profile \x27" ++ name ++ "\x27 has no policy defined")

/-- helper.get_execution_env: the process environment is an explicit parameter
standing for os.environ.  The source returns the dict merge of os.environ and the
env map of the location (an empty dict when env is None); the clean_env field is
never consulted. -/
def get_execution_env (os_environ : EnvMap) (config : RootBackupConfiguration)
    (location_name : String) : Except String EnvMap := do
  let location ← get_location config location_name
  return mergeEnv os_environ (location.env.getD [])

/-- helper.validate_two_repo_operation: rejects identical names, then rejects a pair
of locations whose env dicts (the env field only; None read as an empty dict) share
at least one key. -/
def validate_two_repo_operation (config : RootBackupConfiguration)
    (location_a_name location_b_name : String) : Except String Unit := do
  if location_a_name = location_b_name then
    throw "Error: You can\x27t perform this operation on the same backup location. Exiting..."
  let location_a ← get_location config location_a_name
  let location_a_env := location_a.env.getD []
  let location_b ← get_location config location_b_name
  let location_b_env := location_b.env.getD []
  let intersection := location_a_env.filter
    (fun kv => (location_b_env.lookup kv.1).isSome)
  if intersection.length > 0 then
    throw "Error: These backup locations are incompatible because they have conflicting environment variables. Consider working with a separate local backup location as a middle man, or using rclone. Exiting..."
  return ()

/-- Filesystem oracle for helper.fully_qualified_path: normalize stands for
pathlib expanduser plus absolute, pathExists for Path.exists on the normalized
path. -/
structure Fs where
  normalize : String → String
  pathExists : String → Bool

/-- helper.fully_qualified_path: normalizes the path and, when ensure_exists is
set, fails (print_error) if the normalized path does not exist. -/
def fully_qualified_path (fs : Fs) (path : String) (ensure_exists : Bool) :
    Except String String :=
  let normalized := fs.normalize path
  if ensure_exists && !fs.pathExists normalized then
    .error ("File path \x27" ++ normalized ++ "\x27 (from \x27" ++ path ++ "\x27) does not exist")
  else
    .ok normalized

/-- Tokens of one unvalidated flag section of helper.get_inclusion_arguments: the
loop yields the flag then the entry, for each entry. -/
def flagPairs (flag : String) (entries : List String) : List String :=
  entries.flatMap (fun entry => [flag, entry])

/-- Tokens of one validated flag section of helper.get_inclusion_arguments: each
entry is passed through fully_qualified_path with ensure_exists before being
yielded after its flag. -/
def flagPairsValidated (fs : Fs) (flag : String) (entries : List String) :
    Except String (List String) := do
  let paths ← entries.mapM (fun entry => fully_qualified_path fs entry true)
  return paths.flatMap (fun p => [flag, p])

/-- Python iteration over a str yields its characters one by one; model.py declares
include_files_from and include_files_from_verbatim as str, and the for loops in
helper.get_inclusion_arguments therefore iterate over single characters. -/
def strChars (s : String) : List String :=
  s.data.map (fun c => c.toString)

/-- Embedding of the exclude_larger_than block of helper.get_inclusion_arguments:
guarded by Python truthiness (the walrus if), then the isinstance check that fails
with print_error on a non-str value, then the flag pair. -/
def exclude_larger_than_args (exclude_size : PyStrOrInt) : Except String (List String) :=
  if exclude_size.truthy then
    match exclude_size with
    | .int n =>
      .error ("Option \x27exclude_larger_than\x27 should always be a string, not \x27"
        ++ toString n ++ "\x27 (<class \x27int\x27>)")
    | .str s => .ok ["--exclude-larger-than", s]
  else
    .ok []

/-- Body of helper.get_inclusion_arguments after the profile has been resolved.
The source is a generator: it first collects the plain include entries into
include_list, then yields each flagged section in the fixed source order, and
finally yields the collected include entries; the value of the generator is the
concatenation of the yielded sections, or the first validation error. -/
def inclusion_arguments_of_profile (fs : Fs) (profile : BackupProfile) :
    Except String (List String) := do
  let include_list : List String := profile.include_
  let files_from_args ← flagPairsValidated fs "--files-from"
    (strChars profile.include_files_from)
  let files_from_verbatim_args ← flagPairsValidated fs "--files-from-verbatim"
    (strChars profile.include_files_from_verbatim)
  let exclude_args := flagPairs "--exclude" profile.exclude
  let iexclude_args := flagPairs "--iexclude" profile.iexclude
  let exclude_if_present_args := flagPairs "--exclude-if-present" profile.exclude_if_present
  let exclude_file_args ← flagPairsValidated fs "--exclude-file" profile.exclude_file
  let iexclude_file_args ← flagPairsValidated fs "--iexclude-file" profile.iexclude_file
  let exclude_caches_args := if profile.exclude_caches then ["--exclude-caches"] else []
  let exclude_larger_than_tokens ← exclude_larger_than_args profile.exclude_larger_than
  return files_from_args ++ files_from_verbatim_args ++ exclude_args ++ iexclude_args
    ++ exclude_if_present_args ++ exclude_file_args ++ iexclude_file_args
    ++ exclude_caches_args ++ exclude_larger_than_tokens ++ include_list

/-- helper.get_inclusion_arguments: resolves the profile through get_profile and
emits the token stream.  The group_names parameter is accepted, as in the source,
where the body never reads it (nor the groups field of the profile). -/
def get_inclusion_arguments (fs : Fs) (config : RootBackupConfiguration)
    (profile_name : String) (group_names : List String) : Except String (List String) := do
  let profile ← get_profile config profile_name
  inclusion_arguments_of_profile fs profile

/-- One integer retention field of helper.get_retention_arguments: the flag pair is
appended only when the value is truthy (None and 0 are falsy). -/
def keepFlagInt (flag : String) (value : Option Int) : List String :=
  match value with
  | some n => if n ≠ 0 then [flag, toString n] else []
  | none => []

/-- The keep_within retention field, a string: appended only when truthy. -/
def keepFlagStr (flag : String) (value : Option String) : List String :=
  match value with
  | some s => if s ≠ "" then [flag, s] else []
  | none => []

/-- helper.get_retention_arguments.  The returned Bool records whether the
print_warning branch for a missing retention object ran.  The source appends the
integer values themselves to the token list; they are rendered in decimal when the
process is spawned, so tokens are modelled as their decimal strings. -/
def get_retention_arguments (config : RootBackupConfiguration) (policy : BackupPolicy) :
    List String × Bool :=
  match policy.retention with
  | none => ([], true)
  | some retention =>
    (keepFlagInt "--keep-last" retention.keep_last
      ++ keepFlagStr "--keep-within" retention.keep_within
      ++ keepFlagInt "--keep-hourly" retention.keep_hourly
      ++ keepFlagInt "--keep-daily" retention.keep_daily
      ++ keepFlagInt "--keep-weekly" retention.keep_weekly
      ++ keepFlagInt "--keep-monthly" retention.keep_monthly
      ++ keepFlagInt "--keep-yearly" retention.keep_yearly, false)

/-- Recursion core of helper.fix_timestamp: re.sub scans the text left to right for
non-overlapping matches of colon, one or more digits, a dot, one or more digits,
and rewrites each match with the second digit group truncated to its first six
digits.  The fuel argument bounds the recursion by the length of the text; every
recursive call consumes at least one character. -/
def fixTsAux : Nat → List Char → List Char
  | 0, l => l
  | _ + 1, [] => []
  | fuel + 1, c :: rest =>
    if c = ':' then
      let d1 := rest.takeWhile Char.isDigit
      let r1 := rest.dropWhile Char.isDigit
      if d1 ≠ [] then
        match r1 with
        | '.' :: r2 =>
          let d2 := r2.takeWhile Char.isDigit
          let r3 := r2.dropWhile Char.isDigit
          if d2 ≠ [] then
            (':' :: d1) ++ ('.' :: d2.take 6) ++ fixTsAux fuel r3
          else
            c :: fixTsAux fuel rest
        | _ => c :: fixTsAux fuel rest
      else
        c :: fixTsAux fuel rest
    else
      c :: fixTsAux fuel rest

/-- helper.fix_timestamp: truncates every fractional-seconds group after a
colon-digits prefix to at most six digits. -/
def fix_timestamp (t : String) : String :=
  String.mk (fixTsAux t.length t.data)

/-- Result of the Python datetime parse: the fields strftime reads. -/
structure PyDatetime where
  year : Nat
  month : Nat
  day : Nat
  hour : Nat
  minute : Nat
  second : Nat
  microsecond : Nat
deriving DecidableEq

/-- Decimal value of a digit string. -/
def digitsToNat (l : List Char) : Nat :=
  l.foldl (fun acc c => 10 * acc + (c.toNat - 48)) 0

/-- Reads exactly n digits from the front of the text. -/
def parseFixedDigits (n : Nat) (l : List Char) : Option (Nat × List Char) :=
  let d := l.take n
  if d.length = n && d.all Char.isDigit then some (digitsToNat d, l.drop n) else none

/-- Accepts the timezone suffixes the program can feed the parser: none, Z, or a
sign with an hour-minute offset. -/
def tzOk : List Char → Bool
  | [] => true
  | ['Z'] => true
  | c :: rest =>
    decide (c = '+' ∨ c = '-') &&
      (match rest with
       | [a, b, ':', d, e] => a.isDigit && b.isDigit && d.isDigit && e.isDigit
       | _ => false)

/-- Model of the Python standard library datetime.datetime.fromisoformat, restricted
to the shapes this program feeds it: date, separator, time, an optional fraction of
one to six digits (the source truncates longer fractions with fix_timestamp before
parsing precisely because wider fractions are rejected), and an optional timezone
suffix.  Full calendar validation of the day of month is approximated by an upper
bound of 31. -/
def fromisoformatChars (l : List Char) : Option PyDatetime :=
  match parseFixedDigits 4 l with
  | some (year, '-' :: l1) =>
    match parseFixedDigits 2 l1 with
    | some (month, '-' :: l2) =>
      match parseFixedDigits 2 l2 with
      | some (day, sep :: l3) =>
        if sep = 'T' ∨ sep = ' ' then
          match parseFixedDigits 2 l3 with
          | some (hour, ':' :: l4) =>
            match parseFixedDigits 2 l4 with
            | some (minute, ':' :: l5) =>
              match parseFixedDigits 2 l5 with
              | some (second, rest) =>
                let fracRest : Option (Nat × List Char) :=
                  match rest with
                  | '.' :: r =>
                    let d := r.takeWhile Char.isDigit
                    if d.length = 0 ∨ d.length > 6 then none
                    else some (digitsToNat d * 10 ^ (6 - d.length), r.dropWhile Char.isDigit)
                  | _ => some (0, rest)
                match fracRest with
                | some (microsecond, rest2) =>
                  if tzOk rest2 && decide (1 ≤ month ∧ month ≤ 12 ∧ 1 ≤ day ∧ day ≤ 31
                      ∧ hour ≤ 23 ∧ minute ≤ 59 ∧ second ≤ 59) then
                    some ⟨year, month, day, hour, minute, second, microsecond⟩
                  else none
                | none => none
              | _ => none
            | _ => none
          | _ => none
        else none
      | _ => none
    | _ => none
  | _ => none

/-- String-level entry point of the datetime.fromisoformat model. -/
def fromisoformat (s : String) : Option PyDatetime :=
  fromisoformatChars s.data

/-- Zero padding used by strftime numeric directives. -/
def padZeros (width n : Nat) : String :=
  let s := toString n
  if s.length < width then String.mk (List.replicate (width - s.length) '0') ++ s else s

/-- Model of strftime with the format used in cli.app_archive: four digit year then
two digit month, day, hour, minute, second. -/
def strftime_YmdHMS (dt : PyDatetime) : String :=
  padZeros 4 dt.year ++ padZeros 2 dt.month ++ padZeros 2 dt.day
    ++ padZeros 2 dt.hour ++ padZeros 2 dt.minute ++ padZeros 2 dt.second

/-- Archive file name assembly from cli.app_archive: short name is the Python
expression archive_name or profile_name, the timestamp is strftime of the parsed
snapshot time, and encryption appends a further extension. -/
def archive_file_name (archive_name : Option String) (profile_name : String)
    (dt : PyDatetime) (short_id : String) (encryption_enabled : Bool) : String :=
  let timestamp := strftime_YmdHMS dt
  let short_name := pyOrStr archive_name profile_name
  let base := short_name ++ "_" ++ timestamp ++ "_" ++ short_id ++ ".tar.zst"
  if encryption_enabled then base ++ ".aes" else base

/-- End-to-end file name computation of cli.app_archive for one snapshot: the raw
snapshot time string is first normalized with fix_timestamp, then parsed, then
formatted into the file name; None when the parse fails. -/
def computed_file_name (archive_name : Option String) (profile_name : String)
    (time_str : String) (short_id : String) (encryption_enabled : Bool) : Option String :=
  (fromisoformat (fix_timestamp time_str)).map
    (fun dt => archive_file_name archive_name profile_name dt short_id encryption_enabled)

/-- External process launches performed by the per-snapshot body of
cli.app_archive, in source order: the snapshots metadata query, the stats query,
the dump pipeline (restic dump piped through pv, zstd and optionally openssl),
and the pv stream copy from the staging file to the destination. -/
inductive ArchEvent where
  | snapshots_query
  | stats_query
  | dump_pipeline
  | copy_meter
deriving DecidableEq

/-- Snapshot metadata, as read from the first element of the JSON answer of the
snapshots query in cli.app_archive. -/
structure SnapshotRecord where
  time : String
  short_id : String
  id : String
deriving DecidableEq

/-- Oracle for the externals the per-snapshot body of cli.app_archive consults:
snaps_result is None when the query process fails and some None when its output
contains null; stats_result is None when the stats process fails, else the
total_size field; file_exists models Path.exists; the free fields model
shutil.disk_usage; dump_ok and copy_ok model the success of the two pipelines. -/
structure ArchOracle where
  snaps_result : Option (Option SnapshotRecord)
  stats_result : Option Nat
  file_exists : String → Bool
  cache_free : Nat
  dest_free : Nat
  dump_ok : Bool
  copy_ok : Bool

/-- Per-snapshot body of cli.app_archive (the body of the for loop over the selected
snapshots), returning the list of external process launches in order together with
the outcome.  Failure messages follow the source; the byte counts interpolated into
the free-space messages through humanize are rendered as plain decimal numbers.
Path joining with the / operator of pathlib is rendered as string concatenation
with a slash. -/
def archive_snapshot_step (oracle : ArchOracle) (archive_cache_dir archive_dest_dir : String)
    (archive_name : Option String) (profile_name : String)
    (encryption_enabled cache_enabled : Bool) (snapshot_name : String) :
    List ArchEvent × Except String Unit :=
  let events0 := [ArchEvent.snapshots_query]
  match oracle.snaps_result with
  | none => (events0, .error "Error querying snaphots. Exiting.")
  | some none =>
    (events0, .error ("Could not find snapshot: \x27" ++ snapshot_name ++ "\x27"))
  | some (some latest) =>
    match fromisoformat (fix_timestamp latest.time) with
    | none => (events0, .error "ValueError: Invalid isoformat string")
    | some dt =>
      let file_name := archive_file_name archive_name profile_name dt
        latest.short_id encryption_enabled
      let archive_cache_file := archive_cache_dir ++ "/" ++ file_name
      if oracle.file_exists archive_cache_file then
        (events0, .error ("Archive already exists at \x27" ++ archive_cache_file ++ "\x27"))
      else
        let archive_dest_file := archive_dest_dir ++ "/" ++ file_name
        if oracle.file_exists archive_dest_file then
          (events0, .error ("Final archive already exists at \x27" ++ archive_dest_file ++ "\x27"))
        else
          let events1 := events0 ++ [ArchEvent.stats_query]
          match oracle.stats_result with
          | none => (events1, .error "Error querying snaphot statistics. Exiting.")
          | some latest_size =>
            if oracle.cache_free < latest_size then
              (events1, .error ("Error: Dump archive needs at least " ++ toString latest_size
                ++ ", but directory only has " ++ toString oracle.cache_free ++ " free"))
            else if oracle.dest_free < latest_size then
              (events1, .error ("Error: Dump archive needs at least " ++ toString latest_size
                ++ ", but destination directory only has " ++ toString oracle.dest_free ++ " free"))
            else
              let events2 := events1 ++ [ArchEvent.dump_pipeline]
              if oracle.dump_ok then
                if cache_enabled then
                  let events3 := events2 ++ [ArchEvent.copy_meter]
                  if oracle.copy_ok then
                    (events3, .ok ())
                  else
                    (events3, .error "Error copying archive to final destination. Exiting.")
                else
                  (events2, .ok ())
              else
                (events2, .error "Error creating archive. Exiting.")

/-- Staging directory resolution of cli.app_archive: the cache of the archive
configuration when one is present, else the shared cache value. -/
def dump_cache_value_of (config : RootBackupConfiguration) : Option String :=
  match config.archive with
  | some archive_config => some archive_config.cache
  | none => config.cache

/-- cache_enabled in cli.app_archive is the Python truthiness of the resolved
cache value. -/
def cache_enabled_of (dump_cache_value : Option String) : Bool :=
  pyTruthyStr dump_cache_value

/-- archive_cache_dir in cli.app_archive: the resolved cache directory when the
cache is enabled, else the destination directory doubles as the staging area. -/
def archive_cache_dir_of (dump_cache_value : Option String) (archive_dest_dir : String) :
    String :=
  if pyTruthyStr dump_cache_value then dump_cache_value.getD "" else archive_dest_dir

/-- Analysis of a successful bind in the Except monad. -/
theorem except_bind_ok {ε α β : Type} {x : Except ε α} {f : α → Except ε β} {b : β}
    (h : x >>= f = .ok b) : ∃ a, x = .ok a ∧ f a = .ok b := by
  cases x with
  | ok a => exact ⟨a, rfl, h⟩
  | error e => exact Except.noConfusion h

/-- Filesystem oracle on which every path is taken as already normalized and
existing. -/
def fs_all : Fs := { normalize := fun p => p, pathExists := fun _ => true }

/-- Location used to exercise get_execution_env: it defines a clean_env map and no
env map. -/
def c1_location : BackupLocation :=
  { path := "s3:bucket/a", env := none, clean_env := some [("AWS_KEY", "secret")] }

/-- Configuration holding only c1_location. -/
def c1_config : RootBackupConfiguration := { locations := [("a", c1_location)] }

/-- A concrete process environment. -/
def c1_os_environ : EnvMap := [("PATH", "/usr/bin"), ("HOME", "/root")]

/-- C1: the claim says that when a location defines a clean_env map,
get_execution_env returns exactly that map, replacing the inherited process
environment.  Evaluating the embedded code at such a location shows the opposite:
the clean_env map is ignored and the full process environment is returned
unchanged (the location defines no env map), so the ambient variables survive and
the clean_env content is absent.  This contradicts the dangling "Else" comment in
the source, which describes a branch on clean_env that the body does not contain. -/
theorem C1_clean_env_ignored :
    get_execution_env c1_os_environ c1_config "a" = .ok c1_os_environ ∧
    c1_location.clean_env = some [("AWS_KEY", "secret")] ∧
    c1_os_environ ≠ [("AWS_KEY", "secret")] ∧
    (c1_os_environ.lookup "PATH" = some "/usr/bin" ∧
      c1_os_environ.lookup "AWS_KEY" = none) :=
  ⟨rfl, rfl, by decide, by decide, by decide⟩

/-- Sub-group contributing an include entry; per the CLI help text it should be
backed up whenever no explicit group selection restricts the run. -/
def c2_group : BackupSourceDef := { include_ := ["/data"] }

/-- Profile with one root include, one exclude and one group. -/
def c2_profile : BackupProfile :=
  { policy := some "default", include_ := ["/root-inc"], exclude := ["*.tmp"],
    groups := some [("g", c2_group)] }

/-- Configuration holding only c2_profile. -/
def c2_config : RootBackupConfiguration := { profiles := [("p", c2_profile)] }

/-- C2: the claim says the emitted tokens come from the ordered SourceDef list
global profile, resolved profile, then each selected group (all groups when the
group-name list is empty).  Evaluating the embedded code shows the group content
never contributes: with an empty group list the include entry of group g is
absent from the output, and naming the group explicitly changes nothing, because
the source body reads neither group_names nor profile.groups. -/
theorem C2_groups_never_contribute :
    get_inclusion_arguments fs_all c2_config "p" [] =
      .ok ["--exclude", "*.tmp", "/root-inc"] ∧
    c2_profile.groups = some [("g", c2_group)] ∧
    "/data" ∈ c2_group.include_ ∧
    "/data" ∉ ["--exclude", "*.tmp", "/root-inc"] ∧
    get_inclusion_arguments fs_all c2_config "p" ["g"] =
      get_inclusion_arguments fs_all c2_config "p" [] :=
  ⟨rfl, rfl, by decide, by decide, rfl⟩

/-- C3: every flagged token emitted by get_inclusion_arguments appears strictly
before every bare include token.  The successful output decomposes as the
flagged sections, in the fixed source order, followed by the plain include
entries of the resolved profile as the final segment, so no flagged token can
follow a bare include token. -/
theorem C3_flags_before_includes (fs : Fs) (config : RootBackupConfiguration)
    (profile_name : String) (group_names : List String) (ts : List String)
    (h : get_inclusion_arguments fs config profile_name group_names = .ok ts) :
    ∃ profile files_from_args files_from_verbatim_args exclude_file_args
      iexclude_file_args exclude_larger_than_tokens,
      get_profile config profile_name = .ok profile ∧
      flagPairsValidated fs "--files-from" (strChars profile.include_files_from) =
        .ok files_from_args ∧
      flagPairsValidated fs "--files-from-verbatim"
        (strChars profile.include_files_from_verbatim) = .ok files_from_verbatim_args ∧
      flagPairsValidated fs "--exclude-file" profile.exclude_file = .ok exclude_file_args ∧
      flagPairsValidated fs "--iexclude-file" profile.iexclude_file = .ok iexclude_file_args ∧
      exclude_larger_than_args profile.exclude_larger_than = .ok exclude_larger_than_tokens ∧
      ts = files_from_args ++ files_from_verbatim_args
        ++ flagPairs "--exclude" profile.exclude
        ++ flagPairs "--iexclude" profile.iexclude
        ++ flagPairs "--exclude-if-present" profile.exclude_if_present
        ++ exclude_file_args ++ iexclude_file_args
        ++ (if profile.exclude_caches then ["--exclude-caches"] else [])
        ++ exclude_larger_than_tokens ++ profile.include_ := by
  unfold get_inclusion_arguments at h
  obtain ⟨profile, hprof, h⟩ := except_bind_ok h
  unfold inclusion_arguments_of_profile at h
  obtain ⟨a1, h1, h⟩ := except_bind_ok h
  obtain ⟨a2, h2, h⟩ := except_bind_ok h
  obtain ⟨a6, h6, h⟩ := except_bind_ok h
  obtain ⟨a7, h7, h⟩ := except_bind_ok h
  obtain ⟨a9, h9, h⟩ := except_bind_ok h
  refine ⟨profile, a1, a2, a6, a7, a9, hprof, h1, h2, h6, h7, h9, ?_⟩
  have := Except.ok.inj h
  exact this.symm

/-- Profile used to witness C3: one entry of every pure flagged kind together
with a validated exclude file, an exclude-caches flag, a size filter and a bare
include entry. -/
def c3_profile : BackupProfile :=
  { policy := some "pol", include_ := ["/home"], exclude := ["*.log"],
    exclude_caches := true, exclude_larger_than := .str "1G",
    exclude_file := ["/tmp/exf"] }

/-- Configuration holding only c3_profile. -/
def c3_config : RootBackupConfiguration := { profiles := [("q", c3_profile)] }

/-- Witness for C3 at a concrete profile whose output mixes flagged tokens of
several kinds with a bare include entry. -/
theorem C3_flags_before_includes_witness :
    get_inclusion_arguments fs_all c3_config "q" [] =
      .ok ["--exclude", "*.log", "--exclude-file", "/tmp/exf", "--exclude-caches",
        "--exclude-larger-than", "1G", "/home"] ∧
    ∃ profile files_from_args files_from_verbatim_args exclude_file_args
      iexclude_file_args exclude_larger_than_tokens,
      get_profile c3_config "q" = .ok profile ∧
      flagPairsValidated fs_all "--files-from" (strChars profile.include_files_from) =
        .ok files_from_args ∧
      flagPairsValidated fs_all "--files-from-verbatim"
        (strChars profile.include_files_from_verbatim) = .ok files_from_verbatim_args ∧
      flagPairsValidated fs_all "--exclude-file" profile.exclude_file = .ok exclude_file_args ∧
      flagPairsValidated fs_all "--iexclude-file" profile.iexclude_file =
        .ok iexclude_file_args ∧
      exclude_larger_than_args profile.exclude_larger_than = .ok exclude_larger_than_tokens ∧
      ["--exclude", "*.log", "--exclude-file", "/tmp/exf", "--exclude-caches",
          "--exclude-larger-than", "1G", "/home"] =
        files_from_args ++ files_from_verbatim_args
          ++ flagPairs "--exclude" profile.exclude
          ++ flagPairs "--iexclude" profile.iexclude
          ++ flagPairs "--exclude-if-present" profile.exclude_if_present
          ++ exclude_file_args ++ iexclude_file_args
          ++ (if profile.exclude_caches then ["--exclude-caches"] else [])
          ++ exclude_larger_than_tokens ++ profile.include_ :=
  ⟨rfl, C3_flags_before_includes fs_all c3_config "q" []
    ["--exclude", "*.log", "--exclude-file", "/tmp/exf", "--exclude-caches",
      "--exclude-larger-than", "1G", "/home"] rfl⟩

/-- C4: for a profile P resolved under a defined global profile G, every
list-valued field of the resolved profile is the concatenation of the entries of
G followed by the entries of P (for the two Optional list fields the entries of
None are read as none at all), and every scalar field is the value of P when P
defines one (differs from the field default) and the value of G otherwise. -/
theorem C4_global_profile_merge (config : RootBackupConfiguration) (name : String)
    (P G : BackupProfile)
    (hP : config.profiles.lookup name = some P)
    (hpol : pyTruthyStr P.policy = true)
    (hG : config.global_profile = some G) :
    ∃ R, get_profile config name = .ok R ∧
      R.include_ = G.include_ ++ P.include_ ∧
      R.exclude = G.exclude ++ P.exclude ∧
      R.iexclude = G.iexclude ++ P.iexclude ∧
      R.exclude_if_present = G.exclude_if_present ++ P.exclude_if_present ∧
      R.exclude_file = G.exclude_file ++ P.exclude_file ∧
      R.iexclude_file = G.iexclude_file ++ P.iexclude_file ∧
      R.tags.getD [] = G.tags.getD [] ++ P.tags.getD [] ∧
      R.args.getD [] = G.args.getD [] ++ P.args.getD [] ∧
      (P.policy ≠ none → R.policy = P.policy) ∧
      (P.policy = none → R.policy = G.policy) ∧
      (P.hostname ≠ none → R.hostname = P.hostname) ∧
      (P.hostname = none → R.hostname = G.hostname) ∧
      (P.archive_name ≠ none → R.archive_name = P.archive_name) ∧
      (P.archive_name = none → R.archive_name = G.archive_name) ∧
      (P.include_files_from ≠ "" → R.include_files_from = P.include_files_from) ∧
      (P.include_files_from = "" → R.include_files_from = G.include_files_from) ∧
      (P.include_files_from_verbatim ≠ "" →
        R.include_files_from_verbatim = P.include_files_from_verbatim) ∧
      (P.include_files_from_verbatim = "" →
        R.include_files_from_verbatim = G.include_files_from_verbatim) ∧
      (P.exclude_caches = true → R.exclude_caches = true) ∧
      (P.exclude_caches = false → R.exclude_caches = G.exclude_caches) ∧
      (P.exclude_larger_than ≠ .str "" →
        R.exclude_larger_than = P.exclude_larger_than) ∧
      (P.exclude_larger_than = .str "" →
        R.exclude_larger_than = G.exclude_larger_than) := by
  have hget : get_profile config name = .ok (merge_with_global_profile config P) := by
    simp [get_profile, hP, hpol]
  refine ⟨merge_with_global_profile config P, hget, ?_⟩
  unfold merge_with_global_profile
  rw [hG]
  refine ⟨rfl, rfl, rfl, rfl, rfl, rfl, ?_, ?_, ?_, ?_, ?_, ?_, ?_, ?_, ?_, ?_, ?_, ?_,
    ?_, ?_, ?_, ?_⟩
  · cases hpt : P.tags <;> cases hgt : G.tags <;> simp [mergeOptList, hpt, hgt]
  · cases hpa : P.args <;> cases hga : G.args <;> simp [mergeOptList, hpa, hga]
  · intro h
    cases hc : P.policy with
    | none => exact absurd hc h
    | some v => simp [mergeOptScalar, hc]
  · intro h
    simp [mergeOptScalar, h]
  · intro h
    cases hc : P.hostname with
    | none => exact absurd hc h
    | some v => simp [mergeOptScalar, hc]
  · intro h
    simp [mergeOptScalar, h]
  · intro h
    cases hc : P.archive_name with
    | none => exact absurd hc h
    | some v => simp [mergeOptScalar, hc]
  · intro h
    simp [mergeOptScalar, h]
  · intro h
    simp [mergeScalar, h]
  · intro h
    simp [mergeScalar, h]
  · intro h
    simp [mergeScalar, h]
  · intro h
    simp [mergeScalar, h]
  · intro h
    simp [mergeScalar, h]
  · intro h
    simp [mergeScalar, h]
  · intro h
    simp [mergeScalar, h]
  · intro h
    simp [mergeScalar, h]

/-- Global profile used to witness C4. -/
def c4_G : BackupProfile :=
  { policy := some "gpol", hostname := some "ghost", include_ := ["/g1"],
    exclude := ["g.tmp"], tags := some ["gtag"] }

/-- Specific profile used to witness C4: it defines its own policy and adds its own
entries, leaves hostname unset. -/
def c4_P : BackupProfile :=
  { policy := some "ppol", include_ := ["/p1"], tags := some ["ptag"] }

/-- Configuration used to witness C4. -/
def c4_config : RootBackupConfiguration :=
  { profiles := [("p", c4_P)], global_profile := some c4_G }

/-- Witness for C4 at a concrete configuration. -/
theorem C4_global_profile_merge_witness :
    (c4_config.profiles.lookup "p" = some c4_P ∧ pyTruthyStr c4_P.policy = true ∧
      c4_config.global_profile = some c4_G) ∧
    (∃ R, get_profile c4_config "p" = .ok R ∧
      R.include_ = c4_G.include_ ++ c4_P.include_ ∧
      R.exclude = c4_G.exclude ++ c4_P.exclude ∧
      R.iexclude = c4_G.iexclude ++ c4_P.iexclude ∧
      R.exclude_if_present = c4_G.exclude_if_present ++ c4_P.exclude_if_present ∧
      R.exclude_file = c4_G.exclude_file ++ c4_P.exclude_file ∧
      R.iexclude_file = c4_G.iexclude_file ++ c4_P.iexclude_file ∧
      R.tags.getD [] = c4_G.tags.getD [] ++ c4_P.tags.getD [] ∧
      R.args.getD [] = c4_G.args.getD [] ++ c4_P.args.getD [] ∧
      (c4_P.policy ≠ none → R.policy = c4_P.policy) ∧
      (c4_P.policy = none → R.policy = c4_G.policy) ∧
      (c4_P.hostname ≠ none → R.hostname = c4_P.hostname) ∧
      (c4_P.hostname = none → R.hostname = c4_G.hostname) ∧
      (c4_P.archive_name ≠ none → R.archive_name = c4_P.archive_name) ∧
      (c4_P.archive_name = none → R.archive_name = c4_G.archive_name) ∧
      (c4_P.include_files_from ≠ "" → R.include_files_from = c4_P.include_files_from) ∧
      (c4_P.include_files_from = "" → R.include_files_from = c4_G.include_files_from) ∧
      (c4_P.include_files_from_verbatim ≠ "" →
        R.include_files_from_verbatim = c4_P.include_files_from_verbatim) ∧
      (c4_P.include_files_from_verbatim = "" →
        R.include_files_from_verbatim = c4_G.include_files_from_verbatim) ∧
      (c4_P.exclude_caches = true → R.exclude_caches = true) ∧
      (c4_P.exclude_caches = false → R.exclude_caches = c4_G.exclude_caches) ∧
      (c4_P.exclude_larger_than ≠ .str "" →
        R.exclude_larger_than = c4_P.exclude_larger_than) ∧
      (c4_P.exclude_larger_than = .str "" →
        R.exclude_larger_than = c4_G.exclude_larger_than)) :=
  ⟨⟨rfl, rfl, rfl⟩, C4_global_profile_merge c4_config "p" c4_P c4_G rfl rfl rfl⟩

/-- Spec-side comparison definition for C5, following the words of the claim: the
effective environment of a location is its clean_env map when present, else its
env map. -/
def effective_env_spec (location : BackupLocation) : EnvMap :=
  match location.clean_env with
  | some m => m
  | none => location.env.getD []

/-- Location a for the C5 counterexample: credentials live in clean_env only. -/
def c5_loc_a : BackupLocation :=
  { path := "s3:bucket/a", clean_env := some [("AWS_ACCESS_KEY_ID", "a")] }

/-- Location b for the C5 counterexample: same credential key in clean_env. -/
def c5_loc_b : BackupLocation :=
  { path := "s3:bucket/b", clean_env := some [("AWS_ACCESS_KEY_ID", "b")] }

/-- Configuration for the C5 counterexample. -/
def c5_config : RootBackupConfiguration :=
  { locations := [("a", c5_loc_a), ("b", c5_loc_b)] }

/-- C5 counterexample: two distinct locations whose effective environments (in the
sense of the claim: clean_env if present else env) share the key
AWS_ACCESS_KEY_ID, yet validate_two_repo_operation returns without error, because
the source compares only the env fields and never reads clean_env.  The claim
says this pair must be rejected. -/
theorem C5_effective_env_counterexample :
    validate_two_repo_operation c5_config "a" "b" = .ok () ∧
    "a" ≠ "b" ∧
    (effective_env_spec c5_loc_a).lookup "AWS_ACCESS_KEY_ID" = some "a" ∧
    (effective_env_spec c5_loc_b).lookup "AWS_ACCESS_KEY_ID" = some "b" :=
  ⟨rfl, by decide, rfl, rfl⟩

/-- C5 as amended: validate_two_repo_operation rejects a self-copy, and for two
distinct resolvable locations it succeeds exactly when the env maps of the two
locations (clean_env is never consulted; a missing env map reads as empty) share
no key. -/
theorem C5_env_overlap_validation (config : RootBackupConfiguration) (a b : String)
    (la lb : BackupLocation) (hab : a ≠ b)
    (ha : config.locations.lookup a = some la)
    (hb : config.locations.lookup b = some lb) :
    validate_two_repo_operation config a a =
      .error "Error: You can\x27t perform this operation on the same backup location. Exiting..." ∧
    (validate_two_repo_operation config a b = .ok () ↔
      ∀ kv ∈ la.env.getD [], ((lb.env.getD []).lookup kv.1) = none) := by
  constructor
  · unfold validate_two_repo_operation
    rw [if_pos rfl]
    rfl
  · have hla : get_location config a = .ok la := by simp [get_location, ha]
    have hlb : get_location config b = .ok lb := by simp [get_location, hb]
    simp only [validate_two_repo_operation, hla, hlb, if_neg hab, bind, Except.bind,
      pure, Except.pure]
    by_cases hc : ((la.env.getD []).filter
        (fun kv => ((lb.env.getD []).lookup kv.1).isSome)).length > 0
    · rw [if_pos hc]
      constructor
      · intro h
        exact Except.noConfusion h
      · intro hall
        exfalso
        obtain ⟨kv, hkv⟩ := List.exists_mem_of_length_pos hc
        rw [List.mem_filter] at hkv
        have hn := hall kv hkv.1
        rw [hn] at hkv
        simp at hkv
    · rw [if_neg hc]
      have hnil : (la.env.getD []).filter
          (fun kv => ((lb.env.getD []).lookup kv.1).isSome) = [] :=
        List.length_eq_zero.mp (Nat.eq_zero_of_not_pos hc)
      constructor
      · intro _ kv hkv
        have hmem := (List.filter_eq_nil_iff.mp hnil) kv hkv
        exact Option.not_isSome_iff_eq_none.mp (by simpa using hmem)
      · intro _
        rfl

/-- Location x used to witness the amended C5. -/
def c5_loc_x : BackupLocation := { path := "/repo/x", env := some [("A", "1")] }

/-- Location y used to witness the amended C5: env keys disjoint from x. -/
def c5_loc_y : BackupLocation := { path := "/repo/y", env := some [("B", "2")] }

/-- Configuration used to witness the amended C5. -/
def c5w_config : RootBackupConfiguration :=
  { locations := [("x", c5_loc_x), ("y", c5_loc_y)] }

/-- Witness for the amended C5 at a concrete pair of locations. -/
theorem C5_env_overlap_validation_witness :
    validate_two_repo_operation c5w_config "x" "x" =
      .error "Error: You can\x27t perform this operation on the same backup location. Exiting..." ∧
    (validate_two_repo_operation c5w_config "x" "y" = .ok () ↔
      ∀ kv ∈ c5_loc_x.env.getD [], ((c5_loc_y.env.getD []).lookup kv.1) = none) :=
  C5_env_overlap_validation c5w_config "x" "y" c5_loc_x c5_loc_y (by decide) rfl rfl

/-- Snapshot metadata record returned by the query in the C6 scenarios. -/
def c6_record : SnapshotRecord :=
  { time := "2024-03-01T10:15:30.123456789Z", short_id := "f00dbeef", id := "f00dbeefdead" }

/-- The parsed form of the snapshot time of c6_record. -/
def c6_dt : PyDatetime :=
  { year := 2024, month := 3, day := 1, hour := 10, minute := 15, second := 30,
    microsecond := 123456 }

/-- Oracle for the C6 scenarios: the metadata query succeeds, and a file already
sits at the staging path the archive will compute. -/
def c6_oracle : ArchOracle :=
  { snaps_result := some (some c6_record),
    stats_result := some 1000,
    file_exists := fun p => p == "/cache/db_20240301101530_f00dbeef.tar.zst",
    cache_free := 1000000, dest_free := 1000000, dump_ok := true, copy_ok := true }

/-- C6 counterexample: with a file already present at the computed staging path,
the archive step does fail with the already-exists error, but its launch trace at
that moment is not empty: the snapshot metadata query subprocess has already run,
because the archive file name is derived from the output of that query.  The
claim as stated says no subprocess is launched at all before that failure. -/
theorem C6_subprocess_before_exists_check :
    archive_snapshot_step c6_oracle "/cache" "/dest" none "db" false true "latest" =
      ([ArchEvent.snapshots_query],
        .error "Archive already exists at \x27/cache/db_20240301101530_f00dbeef.tar.zst\x27") ∧
    [ArchEvent.snapshots_query] ≠ ([] : List ArchEvent) :=
  ⟨rfl, by decide⟩

/-- C6 as amended: given a successful metadata query and an existing file at the
computed staging path or at the computed destination path, the archive step fails
with an already-exists error before the stats query, the dump pipeline or the
copy meter is launched; the snapshot metadata query is the only subprocess in the
launch trace at that point. -/
theorem C6_exists_check_trace (oracle : ArchOracle)
    (archive_cache_dir archive_dest_dir : String) (archive_name : Option String)
    (profile_name : String) (encryption_enabled cache_enabled : Bool)
    (snapshot_name : String) (latest : SnapshotRecord) (dt : PyDatetime)
    (hsnaps : oracle.snaps_result = some (some latest))
    (hdt : fromisoformat (fix_timestamp latest.time) = some dt)
    (hfile :
      oracle.file_exists (archive_cache_dir ++ "/" ++
        archive_file_name archive_name profile_name dt latest.short_id encryption_enabled)
          = true ∨
      oracle.file_exists (archive_dest_dir ++ "/" ++
        archive_file_name archive_name profile_name dt latest.short_id encryption_enabled)
          = true) :
    ∃ msg, archive_snapshot_step oracle archive_cache_dir archive_dest_dir archive_name
        profile_name encryption_enabled cache_enabled snapshot_name =
        ([ArchEvent.snapshots_query], .error msg) ∧
      (∃ file, msg = "Archive already exists at \x27" ++ file ++ "\x27" ∨
        msg = "Final archive already exists at \x27" ++ file ++ "\x27") := by
  simp only [archive_snapshot_step, hsnaps, hdt]
  by_cases h1 : oracle.file_exists (archive_cache_dir ++ "/" ++
      archive_file_name archive_name profile_name dt latest.short_id encryption_enabled)
        = true
  · rw [if_pos h1]
    exact ⟨_, rfl, _, Or.inl rfl⟩
  · have h2 : oracle.file_exists (archive_dest_dir ++ "/" ++
        archive_file_name archive_name profile_name dt latest.short_id encryption_enabled)
          = true := by
      rcases hfile with h | h
      · exact absurd h h1
      · exact h
    rw [if_neg h1, if_pos h2]
    exact ⟨_, rfl, _, Or.inr rfl⟩

/-- Witness for the amended C6 at the concrete oracle. -/
theorem C6_exists_check_trace_witness :
    (c6_oracle.snaps_result = some (some c6_record) ∧
      fromisoformat (fix_timestamp c6_record.time) = some c6_dt ∧
      c6_oracle.file_exists ("/cache" ++ "/" ++
        archive_file_name none "db" c6_dt c6_record.short_id false) = true) ∧
    ∃ msg, archive_snapshot_step c6_oracle "/cache" "/dest" none "db" false true "latest" =
        ([ArchEvent.snapshots_query], .error msg) ∧
      (∃ file, msg = "Archive already exists at \x27" ++ file ++ "\x27" ∨
        msg = "Final archive already exists at \x27" ++ file ++ "\x27") :=
  ⟨⟨rfl, rfl, rfl⟩,
    C6_exists_check_trace c6_oracle "/cache" "/dest" none "db" false true "latest"
      c6_record c6_dt rfl rfl (Or.inl rfl)⟩

/-- The retention object of the C7 claim: only keep_daily and keep_weekly set. -/
def c7_retention : BackupRetention := { keep_daily := some 7, keep_weekly := some 4 }

/-- C7: a policy whose retention sets only keep_daily to 7 and keep_weekly to 4
produces exactly the four tokens of those two flags and nothing else; a policy
with no retention object produces the empty token list together with the warning;
for any retention object the output is the seven per-field segments concatenated
in the fixed source order, and the segment of an unset field is empty. -/
theorem C7_retention_arguments (config : RootBackupConfiguration) (policy : BackupPolicy) :
    (policy.retention = some c7_retention →
      get_retention_arguments config policy =
        (["--keep-daily", "7", "--keep-weekly", "4"], false)) ∧
    (policy.retention = none → get_retention_arguments config policy = ([], true)) ∧
    (∀ r, policy.retention = some r →
      (get_retention_arguments config policy).1 =
        keepFlagInt "--keep-last" r.keep_last
          ++ keepFlagStr "--keep-within" r.keep_within
          ++ keepFlagInt "--keep-hourly" r.keep_hourly
          ++ keepFlagInt "--keep-daily" r.keep_daily
          ++ keepFlagInt "--keep-weekly" r.keep_weekly
          ++ keepFlagInt "--keep-monthly" r.keep_monthly
          ++ keepFlagInt "--keep-yearly" r.keep_yearly) ∧
    (∀ flag, keepFlagInt flag none = []) ∧
    (∀ flag, keepFlagStr flag none = []) := by
  refine ⟨?_, ?_, ?_, fun _ => rfl, fun _ => rfl⟩
  · intro h
    unfold get_retention_arguments
    rw [h]
    rfl
  · intro h
    unfold get_retention_arguments
    rw [h]
  · intro r h
    unfold get_retention_arguments
    rw [h]

/-- Policy used to witness C7. -/
def c7_policy : BackupPolicy :=
  { location := some (Sum.inl "main"), retention := some c7_retention }

/-- Witness for C7: the end-to-end token list at the concrete policy of the claim. -/
theorem C7_retention_arguments_witness :
    get_retention_arguments { } c7_policy =
      (["--keep-daily", "7", "--keep-weekly", "4"], false) :=
  (C7_retention_arguments { } c7_policy).1 rfl

/-- C8: for profile db with archive_name unset, snapshot short id f00dbeef and raw
snapshot time 2024-03-01T10:15:30.123456789Z, the fractional seconds are first
truncated to six digits, the truncated string parses, the parsed time formats as
YYYYMMDDHHMMSS, and the computed archive file names with and without encryption
are exactly the ones the claim states. -/
theorem C8_archive_file_names :
    fix_timestamp "2024-03-01T10:15:30.123456789Z" = "2024-03-01T10:15:30.123456Z" ∧
    (fromisoformat (fix_timestamp "2024-03-01T10:15:30.123456789Z")).map strftime_YmdHMS =
      some "20240301101530" ∧
    computed_file_name none "db" "2024-03-01T10:15:30.123456789Z" "f00dbeef" false =
      some "db_20240301101530_f00dbeef.tar.zst" ∧
    computed_file_name none "db" "2024-03-01T10:15:30.123456789Z" "f00dbeef" true =
      some "db_20240301101530_f00dbeef.tar.zst.aes" :=
  ⟨rfl, rfl, rfl, rfl⟩

/-- C9: for a resolved profile whose exclude_larger_than value is set (truthy, per
the walrus-if of the source), an integer value makes the size-filter block raise
the type-class error message and makes get_inclusion_arguments fail on every
input, while a string value is emitted as the flag immediately followed by that
string in every successful output. -/
theorem C9_exclude_larger_than_type_check (fs : Fs) (config : RootBackupConfiguration)
    (profile_name : String) (group_names : List String) (profile : BackupProfile)
    (hprof : get_profile config profile_name = .ok profile)
    (ht : profile.exclude_larger_than.truthy = true) :
    (∀ n : Int, profile.exclude_larger_than = .int n →
      exclude_larger_than_args profile.exclude_larger_than =
        .error ("Option \x27exclude_larger_than\x27 should always be a string, not \x27"
          ++ toString n ++ "\x27 (<class \x27int\x27>)") ∧
      ∀ ts, get_inclusion_arguments fs config profile_name group_names ≠ .ok ts) ∧
    (∀ s : String, profile.exclude_larger_than = .str s →
      ∀ ts, get_inclusion_arguments fs config profile_name group_names = .ok ts →
        ∃ l r, ts = l ++ ["--exclude-larger-than", s] ++ r) := by
  constructor
  · intro n hn
    have ht2 : (PyStrOrInt.int n).truthy = true := by rw [← hn]; exact ht
    have herr : exclude_larger_than_args profile.exclude_larger_than =
        .error ("Option \x27exclude_larger_than\x27 should always be a string, not \x27"
          ++ toString n ++ "\x27 (<class \x27int\x27>)") := by
      rw [hn]
      unfold exclude_larger_than_args
      rw [if_pos ht2]
    refine ⟨herr, ?_⟩
    intro ts h
    unfold get_inclusion_arguments at h
    obtain ⟨p2, hp2, h⟩ := except_bind_ok h
    rw [hprof] at hp2
    have hpe : profile = p2 := Except.ok.inj hp2
    rw [← hpe] at h
    unfold inclusion_arguments_of_profile at h
    obtain ⟨a1, h1, h⟩ := except_bind_ok h
    obtain ⟨a2, h2, h⟩ := except_bind_ok h
    obtain ⟨a6, h6, h⟩ := except_bind_ok h
    obtain ⟨a7, h7, h⟩ := except_bind_ok h
    obtain ⟨a9, h9, h⟩ := except_bind_ok h
    rw [herr] at h9
    exact Except.noConfusion h9
  · intro s hs ts h
    have ht2 : (PyStrOrInt.str s).truthy = true := by rw [← hs]; exact ht
    unfold get_inclusion_arguments at h
    obtain ⟨p2, hp2, h⟩ := except_bind_ok h
    rw [hprof] at hp2
    have hpe : profile = p2 := Except.ok.inj hp2
    rw [← hpe] at h
    unfold inclusion_arguments_of_profile at h
    obtain ⟨a1, h1, h⟩ := except_bind_ok h
    obtain ⟨a2, h2, h⟩ := except_bind_ok h
    obtain ⟨a6, h6, h⟩ := except_bind_ok h
    obtain ⟨a7, h7, h⟩ := except_bind_ok h
    obtain ⟨a9, h9, h⟩ := except_bind_ok h
    have ha9 : a9 = ["--exclude-larger-than", s] := by
      rw [hs] at h9
      unfold exclude_larger_than_args at h9
      rw [if_pos ht2] at h9
      exact (Except.ok.inj h9).symm
    refine ⟨a1 ++ a2 ++ flagPairs "--exclude" profile.exclude
      ++ flagPairs "--iexclude" profile.iexclude
      ++ flagPairs "--exclude-if-present" profile.exclude_if_present
      ++ a6 ++ a7 ++ (if profile.exclude_caches then ["--exclude-caches"] else []),
      profile.include_, ?_⟩
    rw [← Except.ok.inj h, ha9]

/-- Profile used to witness C9: a truthy string size filter. -/
def c9_profile : BackupProfile :=
  { policy := some "pol", exclude_larger_than := .str "100M", include_ := ["/srv"] }

/-- Configuration used to witness C9. -/
def c9_config : RootBackupConfiguration := { profiles := [("p", c9_profile)] }

/-- Witness for C9: at a concrete profile with a string size filter, the flag is
emitted immediately followed by the value. -/
theorem C9_exclude_larger_than_type_check_witness :
    (get_profile c9_config "p" = .ok c9_profile ∧
      c9_profile.exclude_larger_than.truthy = true ∧
      get_inclusion_arguments fs_all c9_config "p" [] =
        .ok ["--exclude-larger-than", "100M", "/srv"]) ∧
    ∃ l r, ["--exclude-larger-than", "100M", "/srv"] =
      l ++ ["--exclude-larger-than", "100M"] ++ r :=
  ⟨⟨rfl, by decide, rfl⟩,
    (C9_exclude_larger_than_type_check fs_all c9_config "p" [] c9_profile rfl
      (by decide)).2 "100M" rfl ["--exclude-larger-than", "100M", "/srv"] rfl⟩

/-- C10: when the global profile defines a policy reference and the named profile
defines none of its own, get_profile fails with the no-policy error, because the
truthiness check on the policy field runs on the unmerged profile before the
merge; the second conjunct shows the merged profile would have inherited the
global policy, so the failure is decided strictly before the merge result could
satisfy the check. -/
theorem C10_policy_checked_before_merge (config : RootBackupConfiguration)
    (name : String) (P G : BackupProfile)
    (hP : config.profiles.lookup name = some P)
    (hpol : P.policy = none)
    (hG : config.global_profile = some G)
    (hGpol : pyTruthyStr G.policy = true) :
    get_profile config name =
      .error ("Error: Backup profile \x27" ++ name ++ "\x27 has no policy defined") ∧
    (merge_with_global_profile config P).policy = G.policy := by
  constructor
  · simp [get_profile, hP, hpol, pyTruthyStr]
  · simp [merge_with_global_profile, hG, mergeOptScalar, hpol]

/-- Global profile used to witness C10: defines a policy reference. -/
def c10_G : BackupProfile := { policy := some "gpol" }

/-- Profile used to witness C10: no policy of its own. -/
def c10_P : BackupProfile := { include_ := ["/x"] }

/-- Configuration used to witness C10. -/
def c10_config : RootBackupConfiguration :=
  { profiles := [("p", c10_P)], global_profile := some c10_G }

/-- Witness for C10 at a concrete configuration. -/
theorem C10_policy_checked_before_merge_witness :
    (c10_config.profiles.lookup "p" = some c10_P ∧ c10_P.policy = none ∧
      c10_config.global_profile = some c10_G ∧ pyTruthyStr c10_G.policy = true) ∧
    (get_profile c10_config "p" =
      .error ("Error: Backup profile \x27" ++ "p" ++ "\x27 has no policy defined") ∧
    (merge_with_global_profile c10_config c10_P).policy = c10_G.policy) :=
  ⟨⟨rfl, rfl, rfl, by decide⟩,
    C10_policy_checked_before_merge c10_config "p" c10_P c10_G rfl rfl rfl (by decide)⟩

end SpgillBackup
